import Mathlib

/-!
Shallow embedding of the model-routing subsystem of the goyo_ai_helper
repository (src/services/model_service/core/{models,config,fallback,manager}.py)
and proofs about the claims of its specification.

Modelling conventions:
* Python floats become `Rat` (all numeric values in this subsystem are small
  decimal literals; no float-specific behaviour is exercised).
* Python dictionaries with string keys become association lists with the
  insertion-order semantics of CPython dicts (`alGet` / `alSet` / `alRemove`).
* `time.time()` becomes an explicit `Rat` argument threaded to each operation
  that reads the clock.
* Exceptions become an explicit `PyErr` value carried in `Except`.  A Python
  exception object may carry a dynamically attached `provider` attribute; the
  field `providerAttr` models it.  No raise site in the repository sets it,
  which the definitions below reflect by always leaving it `none`.
* `async` calls have no concurrency visible to these claims; provider
  adapters are modelled as pure functions from request data to
  `Except PyErr ModelResponse`.
-/

namespace GoyoModelService

/-- Association-list lookup, mirroring CPython `dict.get(k)` on string keys. -/
def alGet {α : Type} : List (String × α) → String → Option α
  | [], _ => none
  | (k', v) :: rest, k => if k' == k then some v else alGet rest k

/-- `dict.get(k, d)`. -/
def alGetD {α : Type} (l : List (String × α)) (k : String) (d : α) : α :=
  (alGet l k).getD d

/-- `d[k] = v`: replace in place if the key exists, else append. -/
def alSet {α : Type} : List (String × α) → String → α → List (String × α)
  | [], k, v => [(k, v)]
  | (k', v') :: rest, k, v =>
      if k' == k then (k, v) :: rest else (k', v') :: alSet rest k v

/-- `d.pop(k, None)` (the value is discarded by every caller). -/
def alRemove {α : Type} (l : List (String × α)) (k : String) : List (String × α) :=
  l.filter (fun q => q.1 != k)

instance {ε α : Type} [DecidableEq ε] [DecidableEq α] : DecidableEq (Except ε α) := by
  intro x y
  cases x <;> cases y
  case error.error a b =>
    exact if h : a = b then .isTrue (by rw [h]) else .isFalse (by intro hh; cases hh; exact h rfl)
  case ok.ok a b =>
    exact if h : a = b then .isTrue (by rw [h]) else .isFalse (by intro hh; cases hh; exact h rfl)
  case error.ok a b => exact .isFalse (by intro hh; cases hh)
  case ok.error a b => exact .isFalse (by intro hh; cases hh)

/-- The process environment: `os.getenv(k)`. -/
def Env : Type := String → Option String

/-- `os.getenv(k, d)`. -/
def getenvD (env : Env) (k d : String) : String := (env k).getD d

/-- The environment with no variables set. -/
def emptyEnv : Env := fun _ => none

/-- `l₂` starts with `l₁` (character-list version). -/
def listStartsWith : List Char → List Char → Bool
  | [], _ => true
  | _ :: _, [] => false
  | a :: as, b :: bs => a == b && listStartsWith as bs

/-- `l₁` occurs as a contiguous run inside `l₂`. -/
def listOccursIn (l₁ : List Char) : List Char → Bool
  | [] => listStartsWith l₁ []
  | b :: bs => listStartsWith l₁ (b :: bs) || listOccursIn l₁ bs

/-- Substring test: Python `sub in s`. -/
def strContainsSub (s sub : String) : Bool := listOccursIn sub.toList s.toList

/-- services/model_service/core/models.py: `ServiceType`. -/
inductive ServiceType
  | QA
  | FINANCE
  | OCR
  | CALENDAR
  | INVOICE
deriving DecidableEq, Repr

/-- `ServiceType.value`. -/
def ServiceType.value : ServiceType → String
  | .QA => "qa"
  | .FINANCE => "finance"
  | .OCR => "ocr"
  | .CALENDAR => "calendar"
  | .INVOICE => "invoice"

/-- services/model_service/core/config.py: `ProviderType`. -/
inductive ProviderType
  | OPENROUTER
  | OPENAI
  | GEMINI
deriving DecidableEq, Repr

/-- `ProviderType.value`. -/
def ProviderType.value : ProviderType → String
  | .OPENROUTER => "openrouter"
  | .OPENAI => "openai"
  | .GEMINI => "gemini"

/-- config.py: `ModelConfig` (immutable value object; Python default
temperature 0.7, max_tokens 4096, timeout 30.0). -/
structure ModelConfig where
  provider : ProviderType
  model : String
  temperature : Rat := 0.7
  max_tokens : Nat := 4096
  timeout : Rat := 30.0
deriving DecidableEq, Repr

/-- A chat message (role, content). -/
structure Msg where
  role : String
  content : String
deriving DecidableEq, Repr

/-- models.py: `ModelRequest`. -/
structure ModelRequest where
  messages : List Msg
  service_type : String
  images : Option (List String) := none
  stream : Bool := false
  temperature : Option Rat := none
  max_tokens : Option Nat := none
  timeout : Option Rat := none
deriving DecidableEq, Repr

/-- models.py: `ModelResponse`. -/
structure ModelResponse where
  content : String
  provider : String
  model : String
  usage : List (String × Nat) := []
  cost : Rat := 0
  duration : Rat := 0
  error : Option String := none
  fallback_used : Bool := false
deriving DecidableEq, Repr

/-- The exception classes raised in this subsystem (models.py plus the
builtin `NotImplementedError` and `ValueError`). -/
inductive ErrKind
  | quotaExceeded
  | providerUnavailable
  | notImplementedErr
  | valueError
  | configurationErr
  | otherErr
deriving DecidableEq, Repr

/-- A raised exception value. `msg` is `str(e)`; `providerAttr` models a
dynamically attached `provider` attribute (no raise site in the repository
attaches one, so every constructor below leaves it `none`). -/
structure PyErr where
  kind : ErrKind
  msg : String
  providerAttr : Option String := none
deriving DecidableEq, Repr

/-- Python `float(s)` on the unsigned decimal numerals this configuration
uses (`"0.7"`, `"30.0"`, ...); malformed input is a `ValueError`. -/
def pyFloat (s : String) : Except PyErr Rat :=
  match s.splitOn "." with
  | [ip] =>
      match ip.toNat? with
      | some i => .ok (i : Rat)
      | none => .error { kind := .valueError, msg := "could not convert string to float: " ++ s }
  | [ip, fp] =>
      match ip.toNat?, fp.toNat? with
      | some i, some f => .ok ((i : Rat) + (f : Rat) / ((10 : Rat) ^ fp.length))
      | _, _ => .error { kind := .valueError, msg := "could not convert string to float: " ++ s }
  | _ => .error { kind := .valueError, msg := "could not convert string to float: " ++ s }

/-- Python `int(s)` on unsigned decimal numerals. -/
def pyInt (s : String) : Except PyErr Nat :=
  match s.toNat? with
  | some n => .ok n
  | none => .error { kind := .valueError, msg := "invalid literal for int: " ++ s }

namespace ServiceConfig

/-- config.py: the `ServiceType.QA` entry of `_DEFAULT_CONFIGS` (named
because `get_primary_config` uses it as the fallback value of `dict.get`). -/
def qaDefaultConfig : ModelConfig :=
  { provider := .OPENROUTER, model := "openai/gpt-oss-20b:free",
    temperature := 0.4, max_tokens := 4096 }

/-- config.py: `ServiceConfig._DEFAULT_CONFIGS` as a partial map (the Python
dict has entries only for QA, FINANCE and OCR). -/
def default_configs : ServiceType → Option ModelConfig
  | .QA => some qaDefaultConfig
  | .FINANCE => some { provider := .OPENROUTER, model := "deepseek/deepseek-r1:free",
                       temperature := 0.3, max_tokens := 8192 }
  | .OCR => some { provider := .GEMINI, model := "gemini-2.5-flash",
                   temperature := 0.1, max_tokens := 2048 }
  | _ => none

/-- config.py: `ServiceConfig._infer_provider`. -/
def infer_provider (model : String) : ProviderType :=
  if model.startsWith "gpt-" || strContainsSub model.toLower "openai" then .OPENAI
  else if model.startsWith "gemini" || strContainsSub model.toLower "google" then .GEMINI
  else .OPENROUTER

/-- config.py: `ServiceConfig._load_from_env`.  Returns `none` when the
`<SERVICE>_SERVICE_MODEL` variable is absent or empty (Python `if not model`);
number parsing can raise `ValueError`. -/
def load_from_env (env : Env) (st : ServiceType) : Except PyErr (Option ModelConfig) :=
  let svcEnvBase := st.value.toUpper ++ "_SERVICE"
  match env (svcEnvBase ++ "_MODEL") with
  | none => .ok none
  | some model =>
      if model = "" then .ok none
      else do
        let temperature ← pyFloat (getenvD env (svcEnvBase ++ "_TEMPERATURE") "0.7")
        let max_tokens ← pyInt (getenvD env (svcEnvBase ++ "_MAX_TOKENS") "4096")
        let timeout ← pyFloat (getenvD env (svcEnvBase ++ "_TIMEOUT") "30.0")
        .ok (some { provider := infer_provider model, model, temperature, max_tokens, timeout })

/-- config.py: `ServiceConfig.get_primary_config`.  Note the source line
`return cls._DEFAULT_CONFIGS.get(service_type, cls._DEFAULT_CONFIGS[ServiceType.QA])`:
a ServiceType absent from `_DEFAULT_CONFIGS` falls back to the QA entry. -/
def get_primary_config (env : Env) (st : ServiceType) : Except PyErr ModelConfig := do
  let env_config ← load_from_env env st
  match env_config with
  | some c => .ok c
  | none => .ok ((default_configs st).getD qaDefaultConfig)

/-- config.py: `ServiceConfig._get_fallback_configs` as a partial map
(entries only for QA, FINANCE, OCR).  The Python method also reads
`BACKUP_ANALYSIS_MODEL`, but that value is never used.  The per-process
memoisation in `_FALLBACK_CONFIGS` caches a pure function of the (fixed)
environment, so it is transparent here. -/
def fallback_configs (env : Env) : ServiceType → Option (List ModelConfig)
  | .QA =>
      let openai_model := getenvD env "MODEL_NAME" (getenvD env "BACKUP_CHAT_MODEL" "gpt-4")
      some [ { provider := .OPENROUTER, model := "x-ai/grok-4-fast:free", temperature := 0.4 },
             { provider := .OPENAI, model := openai_model, temperature := 0.4 },
             { provider := .GEMINI, model := "gemini-2.0-flash-exp", temperature := 0.4 } ]
  | .FINANCE =>
      let openai_model := getenvD env "MODEL_NAME" (getenvD env "BACKUP_CHAT_MODEL" "gpt-4")
      some [ { provider := .OPENROUTER, model := "x-ai/grok-4-fast:free", temperature := 0.3 },
             { provider := .OPENAI, model := openai_model, temperature := 0.3 },
             { provider := .GEMINI, model := "gemini-2.0-flash-exp", temperature := 0.3 } ]
  | .OCR =>
      let backup_vision_model := getenvD env "BACKUP_VISION_MODEL" "gpt-4o"
      some [ { provider := .GEMINI, model := "gemini-2.5-flash", temperature := 0.1 },
             { provider := .OPENAI, model := backup_vision_model, temperature := 0.1 },
             { provider := .OPENROUTER, model := "google/gemini-2.0-flash-exp:free", temperature := 0.1 } ]
  | _ => none

/-- config.py: `ServiceConfig.get_fallback_chain`
(`_FALLBACK_CONFIGS.get(service_type, _FALLBACK_CONFIGS[ServiceType.QA])`). -/
def get_fallback_chain (env : Env) (st : ServiceType) : List ModelConfig :=
  (fallback_configs env st).getD ((fallback_configs env .QA).getD [])

end ServiceConfig

/-- A provider adapter (providers/base_clean.py): a registered name plus the
two completion entry points.  Adapter network behaviour is an oracle
function; a raised exception is an `Except.error`. -/
structure Provider where
  name : String
  chat : List Msg → String → Rat → Nat → Except PyErr ModelResponse
  vision : List Msg → List String → String → Rat → Nat → Except PyErr ModelResponse

/-- manager.py: `self.providers` (name → provider instance). -/
def Registry : Type := List (String × Provider)

/-- The `base_clean.py` adapter contract: every successful response is
stamped with the adapter's own name (`provider=self.name`). -/
def ProviderReportsName (n : String) (p : Provider) : Prop :=
  (∀ msgs m t k r, p.chat msgs m t k = .ok r → r.provider = n) ∧
  (∀ msgs imgs m t k r, p.vision msgs imgs m t k = .ok r → r.provider = n)

/-- A registry as built by `create_default_manager`: each provider is
registered under its own name and stamps that name on its responses. -/
def RegistryWF (registry : Registry) : Prop :=
  ∀ n p, alGet registry n = some p → ProviderReportsName n p

/-- Python `a or b` on an optional number (`None` and `0` are falsy). -/
def pyOrRat (a : Option Rat) (b : Rat) : Rat :=
  match a with
  | some t => if t = 0 then b else t
  | none => b

/-- Python `a or b` on an optional `Nat`. -/
def pyOrNat (a : Option Nat) (b : Nat) : Nat :=
  match a with
  | some t => if t = 0 then b else t
  | none => b

namespace FallbackStrategy

/-- fallback.py: `FallbackStrategy._execute_request`: choose the vision path
when `request.images` is truthy, raise `NotImplementedError` for streaming,
else the chat path. -/
def execute_request (provider : Provider) (request : ModelRequest)
    (config : ModelConfig) : Except PyErr ModelResponse :=
  let temperature := pyOrRat request.temperature config.temperature
  let max_tokens := pyOrNat request.max_tokens config.max_tokens
  match request.images with
  | some (img :: imgs) =>
      provider.vision request.messages (img :: imgs) config.model temperature max_tokens
  | _ =>
      if request.stream then
        .error { kind := .notImplementedErr, msg := "Streaming not yet implemented" }
      else
        provider.chat request.messages config.model temperature max_tokens

/-- `str(last_error)` in the terminal error message (`str(None) = "None"`). -/
def lastErrStr : Option PyErr → String
  | none => "None"
  | some e => e.msg

/-- fallback.py: the `for config in configs_to_try` loop of
`FallbackStrategy.execute`.  Each list element is paired with a flag telling
whether it is the `primary_config` object (Python's `config != primary_config`
is an identity comparison; the primary object occurs exactly once, at the
head).  Besides the source's result, the model returns the list of provider
names actually dispatched to, in dispatch order (the `self._execute_request`
call sites), which the source only logs. -/
def executeLoop (registry : Registry) (request : ModelRequest) :
    List (ModelConfig × Bool) → List String → Option PyErr →
    Except PyErr ModelResponse × List String
  | [], _, last_error =>
      (.error { kind := .providerUnavailable,
                msg := "All providers exhausted. Last error: " ++ lastErrStr last_error }, [])
  | (config, isPrimary) :: rest, attempted, last_error =>
      match alGet registry config.provider.value with
      | none => executeLoop registry request rest attempted last_error
      | some provider =>
          if attempted.contains config.provider.value then
            executeLoop registry request rest attempted last_error
          else
            match execute_request provider request config with
            | .ok response =>
                (.ok { response with fallback_used := !isPrimary }, [config.provider.value])
            | .error e =>
                let out := executeLoop registry request rest
                  (attempted ++ [config.provider.value]) (some e)
                (out.1, config.provider.value :: out.2)

/-- fallback.py: `FallbackStrategy.execute` with
`configs_to_try = [primary_config] + self.fallback_chain`.  (The source's
two `except` arms — `QuotaExceededError` and `Exception` — run the same
code, so the loop model treats every raised error alike.) -/
def execute (fallback_chain : List ModelConfig) (registry : Registry)
    (request : ModelRequest) (primary_config : ModelConfig) :
    Except PyErr ModelResponse × List String :=
  executeLoop registry request
    ((primary_config, true) :: fallback_chain.map (fun c => (c, false))) [] none

end FallbackStrategy

/-- fallback.py: `CircuitBreaker` (defaults: threshold 5, reset 60 s). -/
structure CircuitBreaker where
  failure_threshold : Nat := 5
  reset_timeout : Rat := 60.0
  failure_counts : List (String × Nat) := []
  last_failure_times : List (String × Rat) := []
deriving DecidableEq, Repr

namespace CircuitBreaker

/-- fallback.py: `CircuitBreaker.is_available`.  `now` is the `time.time()`
read; returns the answer and the (possibly auto-reset) state. -/
def is_available (cb : CircuitBreaker) (now : Rat) (provider_name : String) :
    Bool × CircuitBreaker :=
  let cb' :=
    match alGet cb.last_failure_times provider_name with
    | some t =>
        if now - t > cb.reset_timeout then
          { cb with failure_counts := alRemove cb.failure_counts provider_name,
                    last_failure_times := alRemove cb.last_failure_times provider_name }
        else cb
    | none => cb
  (alGetD cb'.failure_counts provider_name 0 < cb'.failure_threshold, cb')

/-- fallback.py: `CircuitBreaker.record_failure` (`now` is its
`time.time()` read). -/
def record_failure (cb : CircuitBreaker) (now : Rat) (provider_name : String) :
    CircuitBreaker :=
  { cb with
    failure_counts :=
      alSet cb.failure_counts provider_name (alGetD cb.failure_counts provider_name 0 + 1),
    last_failure_times := alSet cb.last_failure_times provider_name now }

/-- fallback.py: `CircuitBreaker.record_success`. -/
def record_success (cb : CircuitBreaker) (provider_name : String) : CircuitBreaker :=
  { cb with
    failure_counts := alRemove cb.failure_counts provider_name,
    last_failure_times := alRemove cb.last_failure_times provider_name }

end CircuitBreaker

namespace ModelManager

/-- manager.py: the mutable fields of `ModelManager` (the provider registry
is fixed after construction and passed separately). -/
structure State where
  breaker : CircuitBreaker := {}
  request_count : Nat := 0
  total_duration : Rat := 0
deriving DecidableEq, Repr

/-- manager.py: the list comprehension filtering `fallback_chain` through
`circuit_breaker.is_available`, threading the breaker state through the
successive calls. -/
def filterAvailable (cb : CircuitBreaker) (now : Rat) :
    List ModelConfig → List ModelConfig × CircuitBreaker
  | [] => ([], cb)
  | c :: rest =>
      let step := cb.is_available now c.provider.value
      let out := filterAvailable step.2 now rest
      if step.1 then (c :: out.1, out.2) else out

/-- manager.py: the `ModelRequest(...)` construction in `complete`. -/
def buildRequest (service_type : ServiceType) (messages : List Msg)
    (images : Option (List String)) (stream : Bool)
    (temperature : Option Rat) (max_tokens : Option Nat) (timeout : Option Rat) :
    ModelRequest :=
  { messages, service_type := service_type.value, images, stream,
    temperature, max_tokens, timeout }

/-- manager.py: the `available_chain` value `complete` hands to
`FallbackStrategy`: the fallback chain filtered through the breaker, or —
when the filter empties it — the unfiltered chain (`if not available_chain:
available_chain = fallback_chain`). -/
def chainUsed (env : Env) (cb : CircuitBreaker) (service_type : ServiceType)
    (tStart : Rat) : List ModelConfig :=
  let fallback_chain := ServiceConfig.get_fallback_chain env service_type
  let filtered := filterAvailable cb tStart fallback_chain
  if filtered.1.isEmpty then fallback_chain else filtered.1

/-- manager.py: the body of the `try:` block of `ModelManager.complete`
(request construction through `record_success`).  Returns the raised-or-
returned result together with the breaker state as mutated so far and the
dispatch trace.  `tStart` plays `start_time` and the clock reads of the
`is_available` calls. -/
def completeTry (registry : Registry) (env : Env) (cb : CircuitBreaker)
    (service_type : ServiceType) (messages : List Msg)
    (images : Option (List String)) (stream : Bool)
    (temperature : Option Rat) (max_tokens : Option Nat) (timeout : Option Rat)
    (tStart : Rat) :
    Except PyErr ModelResponse × CircuitBreaker × List String :=
  let request := buildRequest service_type messages images stream temperature max_tokens timeout
  match ServiceConfig.get_primary_config env service_type with
  | .error e => (.error e, cb, [])
  | .ok primary_config =>
      let filtered := filterAvailable cb tStart (ServiceConfig.get_fallback_chain env service_type)
      let out := FallbackStrategy.execute (chainUsed env cb service_type tStart)
        registry request primary_config
      match out.1 with
      | .ok response =>
          (.ok response, (filtered.2).record_success response.provider, out.2)
      | .error e => (.error e, filtered.2, out.2)

/-- The value `ModelManager.complete` hands back, with the post-call manager
state and the dispatch trace made explicit. -/
structure CompleteResult where
  response : ModelResponse
  state : State
  dispatched : List String
deriving DecidableEq, Repr

/-- manager.py: `ModelManager.complete`.  `tStart`/`tEnd` are the two
`time.time()` reads framing the call (`duration = tEnd - tStart`).  The
`except Exception` handler records a breaker failure only when the caught
exception carries a `provider` attribute, then returns the degraded
response; `_update_stats` runs only on the success path. -/
def complete (registry : Registry) (env : Env) (ms : State)
    (service_type : ServiceType) (messages : List Msg)
    (images : Option (List String) := none) (stream : Bool := false)
    (temperature : Option Rat := none) (max_tokens : Option Nat := none)
    (timeout : Option Rat := none) (tStart : Rat := 0) (tEnd : Rat := 0) :
    CompleteResult :=
  let tr := completeTry registry env ms.breaker service_type messages images stream
    temperature max_tokens timeout tStart
  let duration := tEnd - tStart
  match tr.1 with
  | .ok response =>
      { response := { response with duration },
        state := { breaker := tr.2.1,
                   request_count := ms.request_count + 1,
                   total_duration := ms.total_duration + duration },
        dispatched := tr.2.2 }
  | .error e =>
      let cb' :=
        match e.providerAttr with
        | some p => tr.2.1.record_failure tEnd p
        | none => tr.2.1
      { response := { content := "模型服務暫時不可用: " ++ e.msg, provider := "error",
                      model := "none", error := some e.msg, duration },
        state := { ms with breaker := cb' },
        dispatched := tr.2.2 }

/-- manager.py: `ModelManager.get_stats` as (request_count, average_duration). -/
def get_stats (ms : State) : Nat × Rat :=
  if ms.request_count = 0 then (0, 0)
  else (ms.request_count, ms.total_duration / (ms.request_count : Rat))

end ModelManager

/-! Concrete fixtures used by witnesses and counterexamples. -/

/-- A provider whose calls always succeed, stamping its own name on the
response as the `base_clean.py` adapters do (`provider=self.name`). -/
def okProvider (n : String) : Provider :=
  { name := n,
    chat := fun _ m _ _ => .ok { content := "hello", provider := n, model := m },
    vision := fun _ _ m _ _ => .ok { content := "seen", provider := n, model := m } }

/-- A provider whose calls always raise (message `msg`, no `provider`
attribute — as every raise site in the repository). -/
def failProvider (n msg : String) : Provider :=
  { name := n,
    chat := fun _ _ _ _ => .error { kind := .otherErr, msg },
    vision := fun _ _ _ _ _ => .error { kind := .otherErr, msg } }

/-- A registry in which every provider fails. -/
def regAllFail : Registry :=
  [("openrouter", failProvider "openrouter" "boom1"),
   ("openai", failProvider "openai" "boom2"),
   ("gemini", failProvider "gemini" "boom3")]

/-- A registry holding only a healthy `openrouter` provider. -/
def regOpenrouterOk : Registry := [("openrouter", okProvider "openrouter")]

/-- A sample conversation. -/
def sampleMsgs : List Msg := [{ role := "user", content := "hi" }]

/-- A sequence of consecutive `record_failure(p)` calls at the clock values
`ts`, with no intervening success. -/
def recordFailures (cb : CircuitBreaker) (p : String) (ts : List Rat) : CircuitBreaker :=
  ts.foldl (fun c t => c.record_failure t p) cb

/-- A breaker state in which `openrouter` has reached the failure threshold
(5 failures, the last at time 0). -/
def openrouterBrokenCB : CircuitBreaker :=
  { failure_counts := [("openrouter", 5)], last_failure_times := [("openrouter", 0)] }

/-- The terminal error produced when `regAllFail` exhausts the QA candidates
(`gemini` is the last candidate tried). -/
def allFailErr : PyErr :=
  { kind := .providerUnavailable, msg := "All providers exhausted. Last error: boom3" }

/-! Claim theorems. -/

/-- C2, counterexample: `ServiceType.CALENDAR` has no entry in
`_DEFAULT_CONFIGS` and (with an empty environment) no override, yet
`get_primary_config` does not raise a `ConfigurationError` — it silently
returns the QA service's default configuration. -/
theorem get_primary_config_calendar_silently_defaults :
    ServiceConfig.default_configs .CALENDAR = none ∧
    ServiceConfig.get_primary_config emptyEnv .CALENDAR =
      .ok ServiceConfig.qaDefaultConfig :=
  ⟨rfl, rfl⟩

/-- C2, amended: when a ServiceType has no environment override and no
compiled-in default, `get_primary_config` raises nothing and returns the QA
default configuration (`_DEFAULT_CONFIGS.get(st, _DEFAULT_CONFIGS[QA])`). -/
theorem get_primary_config_missing_mapping_returns_qa_default
    (env : Env) (st : ServiceType)
    (hEnv : ServiceConfig.load_from_env env st = .ok none)
    (hDef : ServiceConfig.default_configs st = none) :
    ServiceConfig.get_primary_config env st = .ok ServiceConfig.qaDefaultConfig := by
  simp [ServiceConfig.get_primary_config, hEnv, hDef, bind, Except.bind]

/-- C2, witness for the amended theorem at `INVOICE` with an empty
environment. -/
theorem get_primary_config_missing_mapping_returns_qa_default_witness :
    ServiceConfig.get_primary_config emptyEnv .INVOICE = .ok ServiceConfig.qaDefaultConfig :=
  get_primary_config_missing_mapping_returns_qa_default emptyEnv .INVOICE rfl rfl

/-- C4: a complete call in which every provider fails (here: the three QA
candidates all raise) never invokes `CircuitBreaker.record_failure` — the
caught `ProviderUnavailableError` carries no `provider` attribute, so the
`hasattr(e, 'provider')` guard in `ModelManager.complete` is false and every
attempted provider's failure count stays untouched (here: the counts map
stays empty), contradicting the claim that each attempted provider's count
is incremented. -/
theorem total_failure_records_no_circuit_failures :
    (ModelManager.complete regAllFail emptyEnv {} .QA sampleMsgs).dispatched =
      ["openrouter", "openai", "gemini"] ∧
    (ModelManager.complete regAllFail emptyEnv {} .QA sampleMsgs).state.breaker.failure_counts
      = [] ∧
    allFailErr.providerAttr = none := by
  decide

/-- C8, counterexample: on total failure the degraded response's provider is
`"error"`, which is not the QA primary's provider `"openrouter"`, yet
`fallback_used` is `false` — refuting the claimed `iff` on the degraded
response. -/
theorem degraded_response_fallback_used_not_iff :
    ServiceConfig.get_primary_config emptyEnv .QA = .ok ServiceConfig.qaDefaultConfig ∧
    ServiceConfig.qaDefaultConfig.provider.value = "openrouter" ∧
    ¬(((ModelManager.complete regAllFail emptyEnv {} .QA sampleMsgs).response.fallback_used
         = true) ↔
      (ModelManager.complete regAllFail emptyEnv {} .QA sampleMsgs).response.provider
         ≠ "openrouter") :=
  ⟨rfl, rfl, by decide⟩

/-- C9, counterexample: the degraded response's content is the apology
concatenated with `str(e)`, so it does contain the raw provider error text
(here the last provider's message `"boom3"`), refuting the claim that the
generic message never carries the raw error. -/
theorem degraded_content_embeds_raw_error :
    (ModelManager.complete regAllFail emptyEnv {} .QA sampleMsgs).response.content =
      "模型服務暫時不可用: All providers exhausted. Last error: boom3" ∧
    strContainsSub
      (ModelManager.complete regAllFail emptyEnv {} .QA sampleMsgs).response.content
      "boom3" = true := by
  decide

/-- C3, counterexample: with the breaker open for `openrouter` (5 recorded
failures, within the reset window at time 10) the QA primary — whose
provider is `openrouter` — is still dispatched to by `complete`: only the
fallback chain is filtered through `is_available`, never the primary. -/
theorem circuit_open_primary_still_dispatched :
    (CircuitBreaker.is_available openrouterBrokenCB 10 "openrouter").1 = false ∧
    ServiceConfig.qaDefaultConfig.provider.value = "openrouter" ∧
    (ModelManager.complete regOpenrouterOk emptyEnv { breaker := openrouterBrokenCB }
        .QA sampleMsgs none false none none none 10 11).dispatched = ["openrouter"] := by
  have h2 : ¬((60.0 : Rat) < 10) := by norm_num
  refine ⟨?_, rfl, ?_⟩
  · simp [CircuitBreaker.is_available, openrouterBrokenCB, alGet, alGetD, alRemove, h2]
  · simp [ModelManager.complete, ModelManager.completeTry, ModelManager.filterAvailable,
      ModelManager.buildRequest, FallbackStrategy.execute, FallbackStrategy.executeLoop,
      FallbackStrategy.execute_request, CircuitBreaker.is_available, CircuitBreaker.record_success,
      ServiceConfig.get_primary_config, ServiceConfig.load_from_env,
      ServiceConfig.get_fallback_chain, ServiceConfig.fallback_configs,
      ServiceConfig.qaDefaultConfig, ServiceConfig.default_configs,
      alGet, alGetD, alSet, alRemove, getenvD, emptyEnv, openrouterBrokenCB, regOpenrouterOk,
      okProvider, sampleMsgs, pyOrRat, pyOrNat, ProviderType.value, ServiceType.value,
      FallbackStrategy.lastErrStr, h2, bind, Except.bind]

/-- C1: `ModelManager.complete` is a total function of its inputs (the
`except Exception` handler converts every raised error into a returned
`ModelResponse`, which the model reflects by `complete` having a
non-`Except` result type); whenever the `try` body raises — in particular on
total provider failure — the returned response carries the raised error's
text in its `error` field instead of propagating the exception. -/
theorem complete_total_failure_returns_error_response
    (registry : Registry) (env : Env) (ms : ModelManager.State)
    (service_type : ServiceType) (messages : List Msg) (images : Option (List String))
    (stream : Bool) (temperature : Option Rat) (max_tokens : Option Nat)
    (timeout : Option Rat) (tStart tEnd : Rat) (e : PyErr)
    (h : (ModelManager.completeTry registry env ms.breaker service_type messages images
            stream temperature max_tokens timeout tStart).1 = .error e) :
    (ModelManager.complete registry env ms service_type messages images stream
        temperature max_tokens timeout tStart tEnd).response.error = some e.msg := by
  unfold ModelManager.complete
  simp [h]

/-- C1, witness: the all-providers-fail fixture raises
`ProviderUnavailableError` inside the body, and the returned response has
`error` set to its message. -/
theorem complete_total_failure_returns_error_response_witness :
    (ModelManager.complete regAllFail emptyEnv {} .QA sampleMsgs).response.error =
      some allFailErr.msg :=
  complete_total_failure_returns_error_response regAllFail emptyEnv {} .QA sampleMsgs
    none false none none none 0 0 allFailErr rfl

/-- C9, amended: on total failure the degraded response has a non-null
`error` and a non-empty `content` beginning with the generic apology, but
that content is the apology *concatenated with the raised error's text*
(`f"模型服務暫時不可用: {str(e)}"`), so the raw provider error does appear in
it. -/
theorem degraded_response_error_and_apology_content
    (registry : Registry) (env : Env) (ms : ModelManager.State)
    (service_type : ServiceType) (messages : List Msg) (images : Option (List String))
    (stream : Bool) (temperature : Option Rat) (max_tokens : Option Nat)
    (timeout : Option Rat) (tStart tEnd : Rat) (e : PyErr)
    (h : (ModelManager.completeTry registry env ms.breaker service_type messages images
            stream temperature max_tokens timeout tStart).1 = .error e) :
    (ModelManager.complete registry env ms service_type messages images stream
        temperature max_tokens timeout tStart tEnd).response.error ≠ none ∧
    (ModelManager.complete registry env ms service_type messages images stream
        temperature max_tokens timeout tStart tEnd).response.content =
      "模型服務暫時不可用: " ++ e.msg ∧
    (ModelManager.complete registry env ms service_type messages images stream
        temperature max_tokens timeout tStart tEnd).response.content ≠ "" := by
  unfold ModelManager.complete
  refine ⟨by simp [h], by simp [h], ?_⟩
  simp only [h]
  intro hc
  have hlen := congrArg String.length hc
  simp [String.length_append] at hlen
  exact absurd hlen.1 (by decide)

/-- C9, amended, witness at the all-providers-fail fixture. -/
theorem degraded_response_error_and_apology_content_witness :
    (ModelManager.complete regAllFail emptyEnv {} .QA sampleMsgs).response.content =
      "模型服務暫時不可用: " ++ allFailErr.msg :=
  (degraded_response_error_and_apology_content regAllFail emptyEnv {} .QA sampleMsgs
    none false none none none 0 0 allFailErr rfl).2.1

/-- C10: a `complete` call whose `try` body raises (in particular a
total-failure, degraded-response call) leaves `_request_count` and
`_total_duration` unchanged — `_update_stats` runs only on the success path
— so `get_stats` keeps counting and averaging only successful requests. -/
theorem failed_complete_leaves_stats_unchanged
    (registry : Registry) (env : Env) (ms : ModelManager.State)
    (service_type : ServiceType) (messages : List Msg) (images : Option (List String))
    (stream : Bool) (temperature : Option Rat) (max_tokens : Option Nat)
    (timeout : Option Rat) (tStart tEnd : Rat) (e : PyErr)
    (h : (ModelManager.completeTry registry env ms.breaker service_type messages images
            stream temperature max_tokens timeout tStart).1 = .error e) :
    (ModelManager.complete registry env ms service_type messages images stream
        temperature max_tokens timeout tStart tEnd).state.request_count =
      ms.request_count ∧
    (ModelManager.complete registry env ms service_type messages images stream
        temperature max_tokens timeout tStart tEnd).state.total_duration =
      ms.total_duration ∧
    ModelManager.get_stats
        (ModelManager.complete registry env ms service_type messages images stream
          temperature max_tokens timeout tStart tEnd).state =
      ModelManager.get_stats ms := by
  unfold ModelManager.complete
  refine ⟨by simp [h], by simp [h], ?_⟩
  simp [h, ModelManager.get_stats]

/-- C10, witness at the all-providers-fail fixture starting from a state
with one prior successful request. -/
theorem failed_complete_leaves_stats_unchanged_witness :
    (ModelManager.complete regAllFail emptyEnv
        { request_count := 1, total_duration := 2 } .QA sampleMsgs).state.request_count = 1 :=
  (failed_complete_leaves_stats_unchanged regAllFail emptyEnv
    { request_count := 1, total_duration := 2 } .QA sampleMsgs
    none false none none none 0 0 allFailErr rfl).1

/-! Helper lemmas about association lists and the circuit breaker. -/

theorem alGet_alSet_self {α : Type} (l : List (String × α)) (k : String) (v : α) :
    alGet (alSet l k v) k = some v := by
  induction l with
  | nil => simp [alGet, alSet]
  | cons hd tl ih =>
      by_cases h : hd.1 = k
      · simp [alSet, alGet, h]
      · have hb : (hd.1 == k) = false := beq_eq_false_iff_ne.mpr h
        simp only [alSet]
        rw [show (hd.1 == k) = false from hb]
        simp only [Bool.false_eq_true, if_false]
        cases hd with
        | mk k' v' => simp only [alGet, hb, Bool.false_eq_true, if_false] at ih ⊢; exact ih

theorem alGet_alRemove_self {α : Type} (l : List (String × α)) (k : String) :
    alGet (alRemove l k) k = none := by
  induction l with
  | nil => simp [alGet, alRemove]
  | cons hd tl ih =>
      by_cases h : hd.1 = k
      · simpa [alRemove, h] using ih
      · have hb : (hd.1 == k) = false := beq_eq_false_iff_ne.mpr h
        have hb' : (hd.1 != k) = true := by simp [bne, hb]
        simp only [alRemove, List.filter] at ih ⊢
        rw [hb']
        simp only [alGet, hb, Bool.false_eq_true, if_false]
        exact ih

theorem record_failure_count_self (cb : CircuitBreaker) (t : Rat) (p : String) :
    alGetD (cb.record_failure t p).failure_counts p 0 =
      alGetD cb.failure_counts p 0 + 1 := by
  simp [CircuitBreaker.record_failure, alGetD, alGet_alSet_self]

theorem record_failure_lastTime_self (cb : CircuitBreaker) (t : Rat) (p : String) :
    alGet (cb.record_failure t p).last_failure_times p = some t := by
  simp [CircuitBreaker.record_failure, alGet_alSet_self]

theorem recordFailures_threshold (p : String) (ts : List Rat) (cb : CircuitBreaker) :
    (recordFailures cb p ts).failure_threshold = cb.failure_threshold := by
  induction ts generalizing cb with
  | nil => rfl
  | cons t ts ih => simpa [recordFailures, List.foldl] using ih (cb.record_failure t p)

theorem recordFailures_timeout (p : String) (ts : List Rat) (cb : CircuitBreaker) :
    (recordFailures cb p ts).reset_timeout = cb.reset_timeout := by
  induction ts generalizing cb with
  | nil => rfl
  | cons t ts ih => simpa [recordFailures, List.foldl] using ih (cb.record_failure t p)

theorem recordFailures_count (p : String) (ts : List Rat) (cb : CircuitBreaker) :
    alGetD (recordFailures cb p ts).failure_counts p 0 =
      alGetD cb.failure_counts p 0 + ts.length := by
  induction ts generalizing cb with
  | nil => simp [recordFailures]
  | cons t ts ih =>
      have := ih (cb.record_failure t p)
      simp only [recordFailures, List.foldl] at this ⊢
      rw [this, record_failure_count_self]
      simp only [List.length_cons]
      omega

theorem recordFailures_lastTime (p : String) (ts : List Rat) (cb : CircuitBreaker)
    (tLast : Rat) (h : ts.getLast? = some tLast) :
    alGet (recordFailures cb p ts).last_failure_times p = some tLast := by
  induction ts generalizing cb with
  | nil => simp at h
  | cons t ts ih =>
      cases ts with
      | nil =>
          simp only [List.getLast?_singleton, Option.some.injEq] at h
          subst h
          simpa [recordFailures, List.foldl] using record_failure_lastTime_self cb t p
      | cons t' ts' =>
          rw [List.getLast?_cons_cons] at h
          simpa [recordFailures, List.foldl] using ih (cb.record_failure t p) h

/-- C5: starting from a state with no recorded failures for `p`, after
`failure_threshold` consecutive `record_failure(p)` calls `is_available(p)`
answers `false` (checked within the reset window), and once strictly more
than `reset_timeout` seconds have passed since the last failure the same
call answers `true` again with `p`'s failure count cleared to 0 — the timed
auto-reset inside `is_available`, no explicit reset needed. -/
theorem circuit_breaker_threshold_and_timed_auto_reset
    (cb : CircuitBreaker) (p : String) (ts : List Rat) (tCheck tLast : Rat)
    (hFresh : alGetD cb.failure_counts p 0 = 0)
    (hLen : ts.length = cb.failure_threshold)
    (hPos : 0 < cb.failure_threshold)
    (hLast : ts.getLast? = some tLast) :
    (¬(tCheck - tLast > cb.reset_timeout) →
        ((recordFailures cb p ts).is_available tCheck p).1 = false) ∧
    (tCheck - tLast > cb.reset_timeout →
        ((recordFailures cb p ts).is_available tCheck p).1 = true ∧
        alGetD ((recordFailures cb p ts).is_available tCheck p).2.failure_counts p 0 = 0) := by
  have hTime := recordFailures_lastTime p ts cb tLast hLast
  have hCount := recordFailures_count p ts cb
  rw [hFresh, hLen] at hCount
  have hThr := recordFailures_threshold p ts cb
  have hTo := recordFailures_timeout p ts cb
  constructor
  · intro hIn
    rw [← hTo] at hIn
    simp only [CircuitBreaker.is_available, hTime]
    rw [if_neg hIn]
    simp only [hCount, hThr]
    simp
  · intro hOut
    rw [← hTo] at hOut
    simp only [CircuitBreaker.is_available, hTime]
    rw [if_pos hOut]
    constructor
    · simp only [alGetD, alGet_alRemove_self, Option.getD_none, hThr]
      simpa using hPos
    · simp [alGetD, alGet_alRemove_self]

/-- C5, witness: with the default breaker (threshold 5, reset 60 s), five
failures at times 0..4 make `p` unavailable at time 30, and available again
— with its count cleared — at time 100. -/
theorem circuit_breaker_threshold_and_timed_auto_reset_witness :
    ((recordFailures {} "p" [0, 1, 2, 3, 4]).is_available 30 "p").1 = false ∧
    ((recordFailures {} "p" [0, 1, 2, 3, 4]).is_available 100 "p").1 = true ∧
    alGetD ((recordFailures {} "p" [0, 1, 2, 3, 4]).is_available 100 "p").2.failure_counts
      "p" 0 = 0 := by
  refine ⟨?_, ?_⟩
  · exact (circuit_breaker_threshold_and_timed_auto_reset {} "p" [0, 1, 2, 3, 4] 30 4
      rfl rfl (by decide) rfl).1 (by norm_num)
  · exact (circuit_breaker_threshold_and_timed_auto_reset {} "p" [0, 1, 2, 3, 4] 100 4
      rfl rfl (by decide) rfl).2 (by norm_num)

/-! Helper lemmas about the dispatch trace. -/

theorem complete_dispatched_eq (registry : Registry) (env : Env) (ms : ModelManager.State)
    (service_type : ServiceType) (messages : List Msg) (images : Option (List String))
    (stream : Bool) (temperature : Option Rat) (max_tokens : Option Nat)
    (timeout : Option Rat) (tStart tEnd : Rat) :
    (ModelManager.complete registry env ms service_type messages images stream
        temperature max_tokens timeout tStart tEnd).dispatched =
      (ModelManager.completeTry registry env ms.breaker service_type messages images stream
        temperature max_tokens timeout tStart).2.2 := by
  unfold ModelManager.complete
  cases h : (ModelManager.completeTry registry env ms.breaker service_type messages images
      stream temperature max_tokens timeout tStart).1 <;> simp [h]

theorem completeTry_trace_eq (registry : Registry) (env : Env) (cb : CircuitBreaker)
    (service_type : ServiceType) (messages : List Msg) (images : Option (List String))
    (stream : Bool) (temperature : Option Rat) (max_tokens : Option Nat)
    (timeout : Option Rat) (tStart : Rat) :
    (ModelManager.completeTry registry env cb service_type messages images stream
        temperature max_tokens timeout tStart).2.2 = [] ∨
    ∃ primary_config,
      ServiceConfig.get_primary_config env service_type = .ok primary_config ∧
      (ModelManager.completeTry registry env cb service_type messages images stream
          temperature max_tokens timeout tStart).2.2 =
        (FallbackStrategy.execute (ModelManager.chainUsed env cb service_type tStart) registry
          (ModelManager.buildRequest service_type messages images stream temperature
            max_tokens timeout) primary_config).2 := by
  unfold ModelManager.completeTry
  cases hp : ServiceConfig.get_primary_config env service_type with
  | error e => left; rfl
  | ok primary_config =>
      right
      refine ⟨primary_config, rfl, ?_⟩
      cases ho : (FallbackStrategy.execute (ModelManager.chainUsed env cb service_type tStart)
          registry (ModelManager.buildRequest service_type messages images stream temperature
            max_tokens timeout) primary_config).1 <;> simp [ho]

theorem executeLoop_count_le (registry : Registry) (request : ModelRequest) (name : String) :
    ∀ (L : List (ModelConfig × Bool)) (A : List String) (le : Option PyErr),
      ((FallbackStrategy.executeLoop registry request L A le).2.count name) ≤
        (if A.contains name then 0 else 1) := by
  intro L
  induction L with
  | nil =>
      intro A le
      simp [FallbackStrategy.executeLoop]
  | cons hd tl ih =>
      intro A le
      obtain ⟨config, isPrim⟩ := hd
      simp only [FallbackStrategy.executeLoop]
      cases hreg : alGet registry config.provider.value with
      | none => exact ih A le
      | some provider =>
          simp only []
          cases hAtt : A.contains config.provider.value with
          | true => simpa using ih A le
          | false =>
              rw [if_neg (by simp)]
              have hAmem : config.provider.value ∉ A := by simpa using hAtt
              cases hexec : FallbackStrategy.execute_request provider request config with
              | ok response =>
                  simp only []
                  by_cases hn : name = config.provider.value
                  · subst hn
                    simp [List.count_cons, hAmem]
                  · have hbn : (config.provider.value == name) = false :=
                      beq_eq_false_iff_ne.mpr (fun hh => hn hh.symm)
                    simp [List.count_cons, hbn]
              | error e =>
                  simp only []
                  have h1 := ih (A ++ [config.provider.value]) (some e)
                  by_cases hn : name = config.provider.value
                  · subst hn
                    simp at h1
                    rw [List.count_cons]
                    simp only [beq_self_eq_true, if_true]
                    have hg : ¬(A.contains config.provider.value = true) := by
                      simpa using hAmem
                    rw [if_neg hg]
                    omega
                  · have hc : (A ++ [config.provider.value]).contains name =
                        A.contains name := by
                      simp [List.mem_append, hn]
                    rw [hc] at h1
                    have hbn : (config.provider.value == name) = false :=
                      beq_eq_false_iff_ne.mpr (fun hh => hn hh.symm)
                    rw [List.count_cons, hbn]
                    simpa using h1

/-- C7: within one `complete()` call each providerId is dispatched to at
most once — `attempted_providers` membership makes a second occurrence of
the same provider (whether from the primary config or from fallback-chain
entries) skip without a new dispatch, and a success returns immediately. -/
theorem provider_dispatched_at_most_once_per_complete_call
    (registry : Registry) (env : Env) (ms : ModelManager.State)
    (service_type : ServiceType) (messages : List Msg) (images : Option (List String))
    (stream : Bool) (temperature : Option Rat) (max_tokens : Option Nat)
    (timeout : Option Rat) (tStart tEnd : Rat) (name : String) :
    ((ModelManager.complete registry env ms service_type messages images stream
        temperature max_tokens timeout tStart tEnd).dispatched).count name ≤ 1 := by
  rw [complete_dispatched_eq]
  rcases completeTry_trace_eq registry env ms.breaker service_type messages images stream
      temperature max_tokens timeout tStart with h | ⟨primary_config, _, h⟩
  · rw [h]; simp
  · rw [h]
    have := executeLoop_count_le registry
      (ModelManager.buildRequest service_type messages images stream temperature
        max_tokens timeout) name
      ((primary_config, true) ::
        (ModelManager.chainUsed env ms.breaker service_type tStart).map (fun c => (c, false)))
      [] none
    simpa [FallbackStrategy.execute] using this

theorem executeLoop_trace_sublist (registry : Registry) (request : ModelRequest) :
    ∀ (L : List (ModelConfig × Bool)) (A : List String) (le : Option PyErr),
      List.Sublist ((FallbackStrategy.executeLoop registry request L A le).2)
        (L.map (fun q => q.1.provider.value)) := by
  intro L
  induction L with
  | nil =>
      intro A le
      simp [FallbackStrategy.executeLoop]
  | cons hd tl ih =>
      intro A le
      obtain ⟨config, isPrim⟩ := hd
      simp only [FallbackStrategy.executeLoop, List.map_cons]
      cases hreg : alGet registry config.provider.value with
      | none => exact List.Sublist.cons _ (ih A le)
      | some provider =>
          simp only []
          cases hAtt : A.contains config.provider.value with
          | true =>
              simp only [if_pos rfl]
              exact List.Sublist.cons _ (ih A le)
          | false =>
              rw [if_neg (by simp)]
              cases hexec : FallbackStrategy.execute_request provider request config with
              | ok response =>
                  simp only []
                  exact List.Sublist.cons₂ _ (List.nil_sublist _)
              | error e =>
                  simp only []
                  exact List.Sublist.cons₂ _ (ih (A ++ [config.provider.value]) (some e))

theorem filterAvailable_sublist (now : Rat) :
    ∀ (L : List ModelConfig) (cb : CircuitBreaker),
      List.Sublist ((ModelManager.filterAvailable cb now L).1) L := by
  intro L
  induction L with
  | nil => intro cb; simp [ModelManager.filterAvailable]
  | cons c rest ih =>
      intro cb
      simp only [ModelManager.filterAvailable]
      cases h : (cb.is_available now c.provider.value).1 with
      | true =>
          simp only [h, if_pos rfl]
          exact List.Sublist.cons₂ _ (ih _)
      | false =>
          rw [if_neg (by simp [h])]
          exact List.Sublist.cons _ (ih _)

theorem chainUsed_sublist (env : Env) (cb : CircuitBreaker) (service_type : ServiceType)
    (tStart : Rat) :
    List.Sublist (ModelManager.chainUsed env cb service_type tStart)
      (ServiceConfig.get_fallback_chain env service_type) := by
  unfold ModelManager.chainUsed
  by_cases h :
      (ModelManager.filterAvailable cb tStart
        (ServiceConfig.get_fallback_chain env service_type)).1.isEmpty
  · rw [if_pos h]
  · rw [if_neg h]
    exact filterAvailable_sublist tStart _ cb

theorem executeLoop_head_success (registry : Registry) (request : ModelRequest)
    (config : ModelConfig) (isPrim : Bool) (rest : List (ModelConfig × Bool))
    (A : List String) (le : Option PyErr) (provider : Provider) (response : ModelResponse)
    (hreg : alGet registry config.provider.value = some provider)
    (hA : A.contains config.provider.value = false)
    (hexec : FallbackStrategy.execute_request provider request config = .ok response) :
    FallbackStrategy.executeLoop registry request ((config, isPrim) :: rest) A le =
      (.ok { response with fallback_used := !isPrim }, [config.provider.value]) := by
  simp only [FallbackStrategy.executeLoop, hreg, hA]
  rw [if_neg (by simp)]
  simp [hexec]

theorem executeLoop_success_last (registry : Registry) (request : ModelRequest) :
    ∀ (L : List (ModelConfig × Bool)) (A : List String) (le : Option PyErr)
      (resp : ModelResponse),
      (FallbackStrategy.executeLoop registry request L A le).1 = .ok resp →
      ∃ L₁ config isPrim L₂ provider r0 prior,
        L = L₁ ++ (config, isPrim) :: L₂ ∧
        alGet registry config.provider.value = some provider ∧
        FallbackStrategy.execute_request provider request config = .ok r0 ∧
        resp = { r0 with fallback_used := !isPrim } ∧
        (FallbackStrategy.executeLoop registry request L A le).2 =
          prior ++ [config.provider.value] ∧
        List.Sublist prior (L₁.map (fun q => q.1.provider.value)) := by
  intro L
  induction L with
  | nil =>
      intro A le resp h
      simp [FallbackStrategy.executeLoop] at h
  | cons hd tl ih =>
      intro A le resp h
      obtain ⟨config, isPrim⟩ := hd
      simp only [FallbackStrategy.executeLoop] at h
      cases hreg : alGet registry config.provider.value with
      | none =>
          rw [hreg] at h
          obtain ⟨L₁, cfg, isP, L₂, provider, r0, prior, hdec, hr, he, hresp, htr, hsub⟩ :=
            ih A le resp h
          refine ⟨(config, isPrim) :: L₁, cfg, isP, L₂, provider, r0, prior,
            by rw [hdec]; rfl, hr, he, hresp, ?_, ?_⟩
          · simp only [FallbackStrategy.executeLoop, hreg]
            exact htr
          · simp only [List.map_cons]
            exact List.Sublist.cons _ hsub
      | some provider =>
          rw [hreg] at h
          simp only [] at h
          cases hAtt : A.contains config.provider.value with
          | true =>
              rw [hAtt] at h
              simp only [if_pos rfl] at h
              obtain ⟨L₁, cfg, isP, L₂, provider', r0, prior, hdec, hr, he, hresp, htr, hsub⟩ :=
                ih A le resp h
              refine ⟨(config, isPrim) :: L₁, cfg, isP, L₂, provider', r0, prior,
                by rw [hdec]; rfl, hr, he, hresp, ?_, ?_⟩
              · simp only [FallbackStrategy.executeLoop, hreg, hAtt, if_pos rfl]
                exact htr
              · simp only [List.map_cons]
                exact List.Sublist.cons _ hsub
          | false =>
              rw [hAtt] at h
              rw [if_neg (by simp)] at h
              cases hexec : FallbackStrategy.execute_request provider request config with
              | ok r0 =>
                  rw [hexec] at h
                  simp only [Except.ok.injEq] at h
                  refine ⟨[], config, isPrim, tl, provider, r0, [],
                    rfl, hreg, hexec, h.symm, ?_, List.nil_sublist _⟩
                  simp only [FallbackStrategy.executeLoop, hreg, hAtt]
                  rw [if_neg (by simp)]
                  simp [hexec]
              | error e =>
                  rw [hexec] at h
                  simp only [] at h
                  obtain ⟨L₁, cfg, isP, L₂, provider', r0, prior, hdec, hr, he, hresp, htr,
                    hsub⟩ := ih (A ++ [config.provider.value]) (some e) resp h
                  refine ⟨(config, isPrim) :: L₁, cfg, isP, L₂, provider', r0,
                    config.provider.value :: prior,
                    by rw [hdec]; rfl, hr, he, hresp, ?_, ?_⟩
                  · simp only [FallbackStrategy.executeLoop, hreg, hAtt]
                    rw [if_neg (by simp)]
                    simp only [hexec]
                    rw [htr]
                    simp
                  · simp only [List.map_cons]
                    exact List.Sublist.cons₂ _ hsub

theorem completeTry_fst (registry : Registry) (env : Env) (cb : CircuitBreaker)
    (service_type : ServiceType) (messages : List Msg) (images : Option (List String))
    (stream : Bool) (temperature : Option Rat) (max_tokens : Option Nat)
    (timeout : Option Rat) (tStart : Rat) (primary_config : ModelConfig)
    (hPrim : ServiceConfig.get_primary_config env service_type = .ok primary_config) :
    (ModelManager.completeTry registry env cb service_type messages images stream
        temperature max_tokens timeout tStart).1 =
      (FallbackStrategy.execute (ModelManager.chainUsed env cb service_type tStart) registry
        (ModelManager.buildRequest service_type messages images stream temperature
          max_tokens timeout) primary_config).1 := by
  unfold ModelManager.completeTry
  rw [hPrim]
  cases ho : (FallbackStrategy.execute (ModelManager.chainUsed env cb service_type tStart)
      registry (ModelManager.buildRequest service_type messages images stream temperature
        max_tokens timeout) primary_config).1 <;> simp [ho]

theorem completeTry_snd (registry : Registry) (env : Env) (cb : CircuitBreaker)
    (service_type : ServiceType) (messages : List Msg) (images : Option (List String))
    (stream : Bool) (temperature : Option Rat) (max_tokens : Option Nat)
    (timeout : Option Rat) (tStart : Rat) (primary_config : ModelConfig)
    (hPrim : ServiceConfig.get_primary_config env service_type = .ok primary_config) :
    (ModelManager.completeTry registry env cb service_type messages images stream
        temperature max_tokens timeout tStart).2.2 =
      (FallbackStrategy.execute (ModelManager.chainUsed env cb service_type tStart) registry
        (ModelManager.buildRequest service_type messages images stream temperature
          max_tokens timeout) primary_config).2 := by
  unfold ModelManager.completeTry
  rw [hPrim]
  cases ho : (FallbackStrategy.execute (ModelManager.chainUsed env cb service_type tStart)
      registry (ModelManager.buildRequest service_type messages images stream temperature
        max_tokens timeout) primary_config).1 <;> simp [ho]

/-- C6: within one `complete()` call, the dispatch order is a sublist of the
declared priority order — the primary's provider followed by the fallback
chain's providers in sequence, no randomization; when any candidate's
dispatch succeeds, it is the last dispatch of the whole call: the trace
ends at the successful candidate and every earlier dispatch came from a
strictly earlier candidate, so no subsequent candidate's provider is ever
invoked; in particular a successful primary makes its provider the only
dispatch. -/
theorem candidates_tried_in_declared_order_and_success_short_circuits
    (registry : Registry) (env : Env) (ms : ModelManager.State)
    (service_type : ServiceType) (messages : List Msg) (images : Option (List String))
    (stream : Bool) (temperature : Option Rat) (max_tokens : Option Nat)
    (timeout : Option Rat) (tStart tEnd : Rat) (primary_config : ModelConfig)
    (hPrim : ServiceConfig.get_primary_config env service_type = .ok primary_config) :
    List.Sublist
      ((ModelManager.complete registry env ms service_type messages images stream
        temperature max_tokens timeout tStart tEnd).dispatched)
      (primary_config.provider.value ::
        (ServiceConfig.get_fallback_chain env service_type).map (fun c => c.provider.value)) ∧
    (∀ response,
        (ModelManager.completeTry registry env ms.breaker service_type messages images
          stream temperature max_tokens timeout tStart).1 = .ok response →
        ∃ L₁ config isPrim L₂ provider r0 prior,
          (primary_config, true) ::
              (ModelManager.chainUsed env ms.breaker service_type tStart).map
                (fun c => (c, false)) =
            L₁ ++ (config, isPrim) :: L₂ ∧
          alGet registry config.provider.value = some provider ∧
          FallbackStrategy.execute_request provider
            (ModelManager.buildRequest service_type messages images stream temperature
              max_tokens timeout) config = .ok r0 ∧
          response = { r0 with fallback_used := !isPrim } ∧
          (ModelManager.complete registry env ms service_type messages images stream
            temperature max_tokens timeout tStart tEnd).dispatched =
            prior ++ [config.provider.value] ∧
          List.Sublist prior (L₁.map (fun q => q.1.provider.value))) ∧
    (∀ provider response,
        alGet registry primary_config.provider.value = some provider →
        FallbackStrategy.execute_request provider
          (ModelManager.buildRequest service_type messages images stream temperature
            max_tokens timeout) primary_config = .ok response →
        (ModelManager.complete registry env ms service_type messages images stream
          temperature max_tokens timeout tStart tEnd).dispatched =
          [primary_config.provider.value]) := by
  refine ⟨?_, ?_, ?_⟩
  · rw [complete_dispatched_eq]
    rcases completeTry_trace_eq registry env ms.breaker service_type messages images stream
        temperature max_tokens timeout tStart with h | ⟨p', hp', h⟩
    · rw [h]; exact List.nil_sublist _
    · have hpe : p' = primary_config := by
        rw [hp'] at hPrim
        injection hPrim
      subst hpe
      rw [h]
      have h1 := executeLoop_trace_sublist registry
        (ModelManager.buildRequest service_type messages images stream temperature
          max_tokens timeout)
        ((p', true) ::
          (ModelManager.chainUsed env ms.breaker service_type tStart).map (fun c => (c, false)))
        [] none
      simp only [List.map_cons, List.map_map] at h1
      have h1' : List.Sublist
          ((FallbackStrategy.execute (ModelManager.chainUsed env ms.breaker service_type tStart)
            registry
            (ModelManager.buildRequest service_type messages images stream temperature
              max_tokens timeout) p').2)
          (p'.provider.value ::
            (ModelManager.chainUsed env ms.breaker service_type tStart).map
              (fun c => c.provider.value)) := by
        simpa [FallbackStrategy.execute, Function.comp] using h1
      refine h1'.trans (List.Sublist.cons₂ _ ?_)
      exact List.Sublist.map _ (chainUsed_sublist env ms.breaker service_type tStart)
  · intro response hTry
    have hexec1 : (FallbackStrategy.execute
        (ModelManager.chainUsed env ms.breaker service_type tStart) registry
        (ModelManager.buildRequest service_type messages images stream temperature
          max_tokens timeout) primary_config).1 = .ok response := by
      rw [← completeTry_fst registry env ms.breaker service_type messages images stream
        temperature max_tokens timeout tStart primary_config hPrim]
      exact hTry
    have hexec2 : (FallbackStrategy.executeLoop registry
        (ModelManager.buildRequest service_type messages images stream temperature
          max_tokens timeout)
        ((primary_config, true) ::
          (ModelManager.chainUsed env ms.breaker service_type tStart).map
            (fun c => (c, false)))
        [] none).1 = .ok response := hexec1
    obtain ⟨L₁, config, isPrim, L₂, provider, r0, prior, hdec, hr, he, hresp, htr, hsub⟩ :=
      executeLoop_success_last registry
        (ModelManager.buildRequest service_type messages images stream temperature
          max_tokens timeout)
        ((primary_config, true) ::
          (ModelManager.chainUsed env ms.breaker service_type tStart).map
            (fun c => (c, false)))
        [] none response hexec2
    refine ⟨L₁, config, isPrim, L₂, provider, r0, prior, hdec, hr, he, hresp, ?_, hsub⟩
    rw [complete_dispatched_eq,
      completeTry_snd registry env ms.breaker service_type messages images stream
        temperature max_tokens timeout tStart primary_config hPrim]
    exact htr
  · intro provider response hreg hexec
    rw [complete_dispatched_eq]
    unfold ModelManager.completeTry
    rw [hPrim]
    have he := executeLoop_head_success registry
      (ModelManager.buildRequest service_type messages images stream temperature
        max_tokens timeout)
      primary_config true
      ((ModelManager.chainUsed env ms.breaker service_type tStart).map (fun c => (c, false)))
      [] none provider response hreg rfl hexec
    simp only [FallbackStrategy.execute]
    rw [he]

/-- C6, witness: a healthy primary (`openrouter`) on the QA service is the
only dispatch of the call. -/
theorem candidates_tried_in_declared_order_witness :
    (ModelManager.complete regOpenrouterOk emptyEnv {} .QA sampleMsgs).dispatched =
      ["openrouter"] :=
  (candidates_tried_in_declared_order_and_success_short_circuits regOpenrouterOk emptyEnv
      {} .QA sampleMsgs none false none none none 0 0 ServiceConfig.qaDefaultConfig rfl).2.2
    (okProvider "openrouter")
    { content := "hello", provider := "openrouter", model := ServiceConfig.qaDefaultConfig.model }
    rfl rfl

/-- C3, amended: within one `complete()` call, only the fallback chain is
filtered through `CircuitBreaker.is_available` — the primary config is
handed to the strategy unfiltered, so the primary's provider can be
dispatched to even while circuit-broken — and when the filter empties the
chain, the unfiltered chain is used instead (fail-open).  Hence every
dispatched provider is either the primary's provider or the provider of a
chain entry that the (possibly failed-open) breaker filter let through. -/
theorem dispatched_only_primary_or_breaker_filtered_chain
    (registry : Registry) (env : Env) (ms : ModelManager.State)
    (service_type : ServiceType) (messages : List Msg) (images : Option (List String))
    (stream : Bool) (temperature : Option Rat) (max_tokens : Option Nat)
    (timeout : Option Rat) (tStart tEnd : Rat) (primary_config : ModelConfig)
    (hPrim : ServiceConfig.get_primary_config env service_type = .ok primary_config) :
    ∀ name ∈ (ModelManager.complete registry env ms service_type messages images stream
        temperature max_tokens timeout tStart tEnd).dispatched,
      name = primary_config.provider.value ∨
      name ∈ (ModelManager.chainUsed env ms.breaker service_type tStart).map
        (fun c => c.provider.value) := by
  intro name hname
  rw [complete_dispatched_eq] at hname
  rcases completeTry_trace_eq registry env ms.breaker service_type messages images stream
      temperature max_tokens timeout tStart with h | ⟨p', hp', h⟩
  · rw [h] at hname
    simp at hname
  · have hpe : p' = primary_config := by
      rw [hp'] at hPrim
      injection hPrim
    subst hpe
    rw [h] at hname
    have h1 := executeLoop_trace_sublist registry
      (ModelManager.buildRequest service_type messages images stream temperature
        max_tokens timeout)
      ((p', true) ::
        (ModelManager.chainUsed env ms.breaker service_type tStart).map (fun c => (c, false)))
      [] none
    have h2 := h1.subset hname
    simp only [List.map_cons, List.map_map, List.mem_cons] at h2
    rcases h2 with h2 | h2
    · exact Or.inl h2
    · right
      simpa [Function.comp] using h2

/-- C3, amended, witness: on the broken-openrouter fixture the only
dispatched name is the primary's provider. -/
theorem dispatched_only_primary_or_breaker_filtered_chain_witness :
    "openrouter" = ServiceConfig.qaDefaultConfig.provider.value ∨
    "openrouter" ∈ (ModelManager.chainUsed emptyEnv ({} : ModelManager.State).breaker .QA
        0).map (fun c => c.provider.value) :=
  dispatched_only_primary_or_breaker_filtered_chain regOpenrouterOk emptyEnv {} .QA
    sampleMsgs none false none none none 0 0 ServiceConfig.qaDefaultConfig rfl
    "openrouter" (by decide)

theorem alGet_mem {α : Type} : ∀ (l : List (String × α)) (k : String) (v : α),
    alGet l k = some v → (k, v) ∈ l := by
  intro l
  induction l with
  | nil => intro k v h; simp [alGet] at h
  | cons hd tl ih =>
      intro k v h
      obtain ⟨k', v'⟩ := hd
      simp only [alGet] at h
      by_cases hk : k' = k
      · subst hk
        simp only [beq_self_eq_true, if_true, Option.some.injEq] at h
        subst h
        exact List.mem_cons_self _ _
      · rw [beq_eq_false_iff_ne.mpr hk] at h
        rw [if_neg (by simp)] at h
        exact List.mem_cons_of_mem _ (ih k v h)

theorem regOpenrouterOk_wf : RegistryWF regOpenrouterOk := by
  intro n p h
  have hm := alGet_mem _ _ _ h
  simp only [regOpenrouterOk, List.mem_singleton, Prod.mk.injEq] at hm
  obtain ⟨hn, hp⟩ := hm
  subst hn
  subst hp
  constructor
  · intro msgs m t k r hr
    simp only [okProvider, Except.ok.injEq] at hr
    rw [← hr]
  · intro msgs imgs m t k r hr
    simp only [okProvider, Except.ok.injEq] at hr
    rw [← hr]

theorem execute_request_provider_name (n : String) (p : Provider)
    (request : ModelRequest) (config : ModelConfig) (r : ModelResponse)
    (hwf : ProviderReportsName n p)
    (h : FallbackStrategy.execute_request p request config = .ok r) :
    r.provider = n := by
  obtain ⟨msgs, stv, images, stream, tmp, mx, tout⟩ := request
  cases images with
  | none =>
      cases stream with
      | false =>
          simp only [FallbackStrategy.execute_request, Bool.false_eq_true, if_false] at h
          exact hwf.1 _ _ _ _ _ h
      | true =>
          simp only [FallbackStrategy.execute_request, if_true] at h
          cases h
  | some l =>
      cases l with
      | nil =>
          cases stream with
          | false =>
              simp only [FallbackStrategy.execute_request, Bool.false_eq_true, if_false] at h
              exact hwf.1 _ _ _ _ _ h
          | true =>
              simp only [FallbackStrategy.execute_request, if_true] at h
              cases h
      | cons img imgs =>
          simp only [FallbackStrategy.execute_request] at h
          exact hwf.2 _ _ _ _ _ _ h

theorem executeLoop_tail_success_not_primary (registry : Registry)
    (request : ModelRequest) (primaryName : String) (hWF : RegistryWF registry) :
    ∀ (L : List (ModelConfig × Bool)) (A : List String) (le : Option PyErr),
      (∀ q ∈ L, q.2 = false) →
      (A.contains primaryName = true ∨ alGet registry primaryName = none) →
      ∀ resp : ModelResponse,
        (FallbackStrategy.executeLoop registry request L A le).1 = .ok resp →
        resp.fallback_used = true ∧ resp.provider ≠ primaryName := by
  intro L
  induction L with
  | nil =>
      intro A le _ _ resp h
      simp [FallbackStrategy.executeLoop] at h
  | cons hd tl ih =>
      intro A le hL hA resp h
      obtain ⟨config, isPrim⟩ := hd
      have hPrimFalse : isPrim = false := hL (config, isPrim) (List.mem_cons_self _ _)
      subst hPrimFalse
      have hLtl : ∀ q ∈ tl, q.2 = false := fun q hq => hL q (List.mem_cons_of_mem _ hq)
      simp only [FallbackStrategy.executeLoop] at h
      cases hreg : alGet registry config.provider.value with
      | none =>
          rw [hreg] at h
          exact ih A le hLtl hA resp h
      | some provider =>
          rw [hreg] at h
          simp only [] at h
          cases hAtt : A.contains config.provider.value with
          | true =>
              rw [hAtt] at h
              simp only [if_pos rfl] at h
              exact ih A le hLtl hA resp h
          | false =>
              rw [hAtt] at h
              rw [if_neg (by simp)] at h
              cases hexec : FallbackStrategy.execute_request provider request config with
              | ok response =>
                  rw [hexec] at h
                  simp only [Except.ok.injEq] at h
                  have hprov : response.provider = config.provider.value :=
                    execute_request_provider_name _ _ _ _ _
                      (hWF _ _ hreg) hexec
                  subst h
                  refine ⟨rfl, ?_⟩
                  simp only [hprov]
                  intro hcontra
                  rcases hA with hA | hA
                  · rw [hcontra] at hAtt
                    rw [hAtt] at hA
                    cases hA
                  · rw [hcontra] at hreg
                    rw [hreg] at hA
                    cases hA
              | error e =>
                  rw [hexec] at h
                  simp only [] at h
                  refine ih (A ++ [config.provider.value]) (some e) hLtl ?_ resp h
                  rcases hA with hA | hA
                  · left
                    have hmem : primaryName ∈ A := by simpa using hA
                    simp [List.mem_append, hmem]
                  · exact Or.inr hA

theorem execute_fallback_used_iff (chain : List ModelConfig) (registry : Registry)
    (request : ModelRequest) (primary_config : ModelConfig) (resp : ModelResponse)
    (hWF : RegistryWF registry)
    (h : (FallbackStrategy.execute chain registry request primary_config).1 = .ok resp) :
    (resp.fallback_used = true ↔ resp.provider ≠ primary_config.provider.value) := by
  unfold FallbackStrategy.execute at h
  simp only [FallbackStrategy.executeLoop] at h
  cases hreg : alGet registry primary_config.provider.value with
  | none =>
      rw [hreg] at h
      have := executeLoop_tail_success_not_primary registry request
        primary_config.provider.value hWF
        (chain.map (fun c => (c, false))) [] none
        (by intro q hq; simp only [List.mem_map] at hq; obtain ⟨c, _, hc⟩ := hq; rw [← hc])
        (Or.inr hreg) resp h
      simp [this.1, this.2]
  | some provider =>
      rw [hreg] at h
      simp only [List.contains_nil] at h
      rw [if_neg (by simp)] at h
      cases hexec : FallbackStrategy.execute_request provider request primary_config with
      | ok response =>
          rw [hexec] at h
          simp only [Except.ok.injEq] at h
          have hprov : response.provider = primary_config.provider.value :=
            execute_request_provider_name _ _ _ _ _ (hWF _ _ hreg) hexec
          subst h
          simp [hprov]
      | error e =>
          rw [hexec] at h
          simp only [] at h
          have := executeLoop_tail_success_not_primary registry request
            primary_config.provider.value hWF
            (chain.map (fun c => (c, false))) ([] ++ [primary_config.provider.value])
            (some e)
            (by intro q hq; simp only [List.mem_map] at hq; obtain ⟨c, _, hc⟩ := hq; rw [← hc])
            (Or.inl (by simp)) resp h
          simp [this.1, this.2]

/-- C8, amended: for a `complete()` call whose `try` body succeeds — and
with a registry whose providers stamp their registered name on their
responses, as the adapters do — `fallback_used` is true iff the provider
that produced the response is not the primary's provider.  The
degraded-failure response, by contrast, always carries
`fallback_used = false` (its `provider` is `"error"`, not the primary's). -/
theorem fallback_used_iff_winner_not_primary_on_success
    (registry : Registry) (env : Env) (ms : ModelManager.State)
    (service_type : ServiceType) (messages : List Msg) (images : Option (List String))
    (stream : Bool) (temperature : Option Rat) (max_tokens : Option Nat)
    (timeout : Option Rat) (tStart tEnd : Rat) (primary_config : ModelConfig)
    (hWF : RegistryWF registry)
    (hPrim : ServiceConfig.get_primary_config env service_type = .ok primary_config) :
    (∀ response,
        (ModelManager.completeTry registry env ms.breaker service_type messages images
          stream temperature max_tokens timeout tStart).1 = .ok response →
        ((ModelManager.complete registry env ms service_type messages images stream
            temperature max_tokens timeout tStart tEnd).response.fallback_used = true ↔
          (ModelManager.complete registry env ms service_type messages images stream
            temperature max_tokens timeout tStart tEnd).response.provider ≠
            primary_config.provider.value)) ∧
    (∀ e,
        (ModelManager.completeTry registry env ms.breaker service_type messages images
          stream temperature max_tokens timeout tStart).1 = .error e →
        (ModelManager.complete registry env ms service_type messages images stream
          temperature max_tokens timeout tStart tEnd).response.fallback_used = false) := by
  constructor
  · intro response hTry
    have hexec1 : (FallbackStrategy.execute
        (ModelManager.chainUsed env ms.breaker service_type tStart) registry
        (ModelManager.buildRequest service_type messages images stream temperature
          max_tokens timeout) primary_config).1 = .ok response := by
      rw [← completeTry_fst registry env ms.breaker service_type messages images stream
        temperature max_tokens timeout tStart primary_config hPrim]
      exact hTry
    have hiff := execute_fallback_used_iff _ registry _ primary_config response hWF hexec1
    have hresp : (ModelManager.complete registry env ms service_type messages images stream
        temperature max_tokens timeout tStart tEnd).response =
        { response with duration := tEnd - tStart } := by
      unfold ModelManager.complete
      simp [hTry]
    rw [hresp]
    exact hiff
  · intro e hTry
    unfold ModelManager.complete
    simp [hTry]

/-- C8, amended, witness: a successful primary call on the healthy
`openrouter` fixture has `fallback_used = false` and provider equal to the
primary's, satisfying the iff. -/
theorem fallback_used_iff_winner_not_primary_on_success_witness :
    ((ModelManager.complete regOpenrouterOk emptyEnv {} .QA
        sampleMsgs).response.fallback_used = true ↔
      (ModelManager.complete regOpenrouterOk emptyEnv {} .QA
        sampleMsgs).response.provider ≠ ServiceConfig.qaDefaultConfig.provider.value) :=
  (fallback_used_iff_winner_not_primary_on_success regOpenrouterOk emptyEnv {} .QA
      sampleMsgs none false none none none 0 0 ServiceConfig.qaDefaultConfig
      regOpenrouterOk_wf rfl).1
    { content := "hello", provider := "openrouter", model := "openai/gpt-oss-20b:free" } rfl

end GoyoModelService
